import Mathlib

/-!
Verification of the semantic index engine of `airspace-visualizer`.

The Python program (`src/ai_server.py`) maintains a global FAISS inner-product
index paired with a global `metadata` list of summary strings.  A background
thread periodically rebuilds both from two telemetry files; Flask handlers
`/ask` and `/chat` embed a query, search the index, filter by a confidence
threshold and truncate to a maximum number of results.

Shallow embedding conventions:
* Embedding vectors are `List ℚ` (the float32 vectors of the program, with
  exact arithmetic standing in for floating point).
* The external embedding provider (`get_embedding`, which calls ollama and
  L2-normalizes the result) is an oracle `E : String → Option (List ℚ)`;
  `none` models the call raising an exception for that one text.
* The globally visible mutable state (`index`, `metadata`) is `ServerState`.
* FAISS `index.search` is modelled by its contract (see `indexSearch`), since
  the FAISS library code is not part of this repository.
* JSON entries are modelled with `Option String` fields: `none` models an
  absent key, `some s` a present value whose string rendering is `s`
  (Python f-strings stringify values of any type).
-/

/-- The globally visible mutable state of `ai_server.py`: the vector list held
by the FAISS index (`index`) and the paired summary list (`metadata`). -/
structure ServerState where
  index : List (List ℚ)
  metadata : List String
deriving DecidableEq, Repr

/-- One ADS-B aircraft entry (a decoded JSON object); each field is `none`
when the key is absent, `some s` when present rendering as `s`. -/
structure AdsbEntry where
  flight : Option String
  hex : Option String
  alt_baro : Option String
  gs : Option String
  lat : Option String
  lon : Option String
deriving DecidableEq, Repr

/-- Python `str.strip()`: remove leading and trailing whitespace. -/
def pyStrip (s : String) : String :=
  ⟨((s.toList.dropWhile Char.isWhitespace).reverse.dropWhile Char.isWhitespace).reverse⟩

/-- `a.get("flight", "unknown").strip()` of `extract_semantic_messages`. -/
def renderFlight (a : AdsbEntry) : String := pyStrip (a.flight.getD "unknown")

/-- `a.get("hex", "")` of `extract_semantic_messages`. -/
def renderHex (a : AdsbEntry) : String := a.hex.getD ""

/-- `a.get("alt_baro", "unknown")` of `extract_semantic_messages`. -/
def renderAlt (a : AdsbEntry) : String := a.alt_baro.getD "unknown"

/-- `a.get("gs", "unknown")` of `extract_semantic_messages`. -/
def renderSpeed (a : AdsbEntry) : String := a.gs.getD "unknown"

/-- `a.get("lat", "?")` of `extract_semantic_messages`. -/
def renderLat (a : AdsbEntry) : String := a.lat.getD "?"

/-- `a.get("lon", "?")` of `extract_semantic_messages`. -/
def renderLon (a : AdsbEntry) : String := a.lon.getD "?"

/-- The f-string
`f"ADS-B: {flight} ({hexcode}) at {alt} ft, speed {speed} knots, position {lat}, {lon}"`
built for each ADS-B entry in `extract_semantic_messages`. -/
def adsbSummary (a : AdsbEntry) : String :=
  "ADS-B: " ++ renderFlight a ++ " (" ++ renderHex a ++ ") at " ++ renderAlt a
    ++ " ft, speed " ++ renderSpeed a ++ " knots, position " ++ renderLat a
    ++ ", " ++ renderLon a

/-- One VDL2/ACARS entry after wrapper resolution
(`entry.get("vdl2", entry)` and `v.get("acars", {})`): the flight id and the
message text of the `acars` object, `none` when absent. -/
structure VdlEntry where
  flight : Option String
  msg_text : Option String
deriving DecidableEq, Repr

/-- The f-string `f"ACARS message from flight {flight}: {msg_text}"` built for
each VDL2 entry in `extract_semantic_messages`, with the defaults
`acars.get("flight", "unknown").strip()` and `acars.get("msg_text", "no message")`. -/
def vdl2Summary (v : VdlEntry) : String :=
  "ACARS message from flight " ++ pyStrip (v.flight.getD "unknown") ++ ": "
    ++ (v.msg_text.getD "no message")

/-- `extract_semantic_messages`: each source contributes one summary per entry;
a missing, empty or malformed source (its `try` block raising) contributes
nothing and is modelled by `none`. -/
def extract_semantic_messages (adsb : Option (List AdsbEntry))
    (vdl2 : Option (List VdlEntry)) : List String :=
  (match adsb with
   | none => []
   | some l => l.map adsbSummary)
  ++ (match vdl2 with
      | none => []
      | some l => l.map vdl2Summary)

/-- `rebuild_index` as a state transformer: given the embedding oracle `E`,
the extracted `summaries` and the previous global state, it returns the final
global state.  Mirrors `src/ai_server.py` lines 81-121:
* `if not summaries: return` — previous state kept;
* otherwise the globals are reset (`index = faiss.IndexFlatIP(...)`,
  `metadata = []`), the loop collects the successful embeddings in order
  (`embeddings_list`, failures `continue`), and only if `embeddings_list` is
  non-empty does the code run `index.add(emb_matrix)` and
  `metadata.extend(summaries[:len(embeddings_list)])`.
Writing the index to disk (lines 114-119) has no effect on the in-memory
state and is omitted. -/
def rebuild_index (E : String → Option (List ℚ)) (summaries : List String)
    (st : ServerState) : ServerState :=
  if summaries.isEmpty then st
  else
    let embeddings_list := summaries.filterMap E
    if embeddings_list.isEmpty then ⟨[], []⟩
    else ⟨embeddings_list, summaries.take embeddings_list.length⟩

/-- The sequence of globally visible states during one `rebuild_index` call.
Each element is the shared state after one of the atomic Python steps that a
concurrently running request handler can observe, in program order:
the state on entry; after the reset `index = faiss.IndexFlatIP(EMBED_DIM);
metadata = []` (lines 91-92); after `index.add(emb_matrix)` (line 110); and
after `metadata.extend(...)` (line 111).  There is no lock: `/ask` and
`/chat` read `index` and `metadata` at whatever point the rebuild thread has
reached. -/
def rebuildTrace (E : String → Option (List ℚ)) (summaries : List String)
    (st : ServerState) : List ServerState :=
  if summaries.isEmpty then [st]
  else
    let embeddings_list := summaries.filterMap E
    if embeddings_list.isEmpty then [st, ⟨[], []⟩]
    else [st, ⟨[], []⟩, ⟨embeddings_list, []⟩,
          ⟨embeddings_list, summaries.take embeddings_list.length⟩]

/-- Test embedding oracle: the call raises for the text "A" and succeeds with
the vector [1] for every other text. -/
def embedFailA : String → Option (List ℚ) := fun s => if s = "A" then none else some [1]

/-- Test embedding oracle: every call succeeds with the vector [2]. -/
def embedConst2 : String → Option (List ℚ) := fun _ => some [2]

/-- Test embedding oracle: every call raises. -/
def embedAlwaysFail : String → Option (List ℚ) := fun _ => none

/-- A concrete non-empty previously published state. -/
def preOld : ServerState := ⟨[[1]], ["old"]⟩

/-- The mixed state a reader can observe between `index.add` (line 110) and
`metadata.extend` (line 111) when `preOld` is rebuilt to one summary "new"
whose embedding (under `embedConst2`) is [2]: the new vector list paired
with a still-empty metadata list. -/
def mixedState : ServerState := ⟨[[2]], []⟩

/-- The natural number denoted by a digit string, accumulated left to right
(how Python parses the digit part of a numeric literal). -/
def digitsToNat (cs : List Char) : ℕ :=
  cs.foldl (fun n c => 10 * n + (c.toNat - 48)) 0

/-- Unsigned part of Python `float(s)`: digits with an optional decimal point
(`"12"`, `"0.3"`, `"12."`, `".5"`).  `none` models `float` raising
`ValueError`.  Exponents, `inf`/`nan` and surrounding whitespace never occur
in this development and are modelled as rejected. -/
def parseUnsignedFloat (cs : List Char) : Option ℚ :=
  let intPart := cs.takeWhile Char.isDigit
  let rest := cs.dropWhile Char.isDigit
  match rest with
  | [] => if intPart.isEmpty then none else some (digitsToNat intPart)
  | '.' :: frac =>
    if frac.all Char.isDigit && !(intPart.isEmpty && frac.isEmpty) then
      some ((digitsToNat intPart : ℚ) + (digitsToNat frac : ℚ) / (10 ^ frac.length))
    else none
  | _ => none

/-- Python `float(s)` as applied to the `threshold` request parameter:
optional sign, then an unsigned decimal literal. -/
def pyFloat (s : String) : Option ℚ :=
  match s.toList with
  | '-' :: t => (parseUnsignedFloat t).map (fun q => -q)
  | '+' :: t => parseUnsignedFloat t
  | t => parseUnsignedFloat t

/-- Python `int(s)` as applied to the `max_results`/`max_context` request
parameters: optional sign, then digits only.  `none` models `ValueError`. -/
def pyInt (s : String) : Option Int :=
  match s.toList with
  | '-' :: t => if !t.isEmpty && t.all Char.isDigit then some (-(digitsToNat t : Int)) else none
  | '+' :: t => if !t.isEmpty && t.all Char.isDigit then some (digitsToNat t) else none
  | t => if !t.isEmpty && t.all Char.isDigit then some (digitsToNat t) else none

/-- Python slice `xs[:n]` for an `int` `n` of either sign: the first `n`
elements when `n ≥ 0`, all but the last `-n` elements when `n < 0`. -/
def pySlice {α : Type} (n : Int) (xs : List α) : List α :=
  if 0 ≤ n then xs.take n.toNat
  else xs.take (xs.length - (-n).toNat)

/-- Modelled from the spec: the call `index.search(query_emb, k)` executes
FAISS library code that is not part of this repository.  Per the Vector
Index contract (spec section 4.3) the search returns the scored candidates
in descending score order, `min(k, count)` of them, each with its position
into the paired summary list.  `scored` is the full descending
(score, position) candidate list of the index; the model returns its first
`k` entries (none when `k ≤ 0`). -/
def indexSearch (scored : List (ℚ × ℕ)) (k : Int) : List (ℚ × ℕ) :=
  scored.take k.toNat

/-- The filtering loop shared by `ask_question` (lines 252-260) and
`chat_endpoint` (lines 191-194): keep each searched candidate whose position
is in range (`idx < len(metadata)`) and whose score is at or above the
threshold (`score >= threshold`), pairing the summary text with its score,
in the order the search produced. -/
def ask_filter (metadata : List String) (threshold : ℚ)
    (cands : List (ℚ × ℕ)) : List (String × ℚ) :=
  cands.filterMap (fun c =>
    if c.2 < metadata.length ∧ threshold ≤ c.1 then
      some (metadata.getD c.2 "", c.1)
    else none)

/-- Outcome of one Flask request: `ok` carries the 200 JSON body (reduced to
the fields the claims mention), `errorJson` a structured `error` JSON the
handler itself returns, `unhandled` an exception that escapes the handler
(the framework then produces a 500 response; no body of this code runs). -/
inductive Response (α : Type) where
  | ok (body : α)
  | errorJson (msg : String)
  | unhandled (msg : String)
deriving DecidableEq, Repr

/-- The `/ask` handler `ask_question` (lines 216-315).  `scored` is the
candidate list held by the FAISS index (see `indexSearch`); `queryEmbedOk`
models whether `get_embedding(query)` inside the `try` succeeds (`false`:
the `except` returns the structured "Search error" JSON).  Faithful to the
source order: `threshold` and `max_results` are parsed on lines 219-220,
BEFORE the `try` block, so a `ValueError` there escapes the handler; the
empty-query check and the empty-index check follow; then search breadth
`min(max_results * 3, len(metadata))`, threshold filtering, and truncation
`filtered_results[:max_results]`.  The body is reduced to the (text, score)
result list. -/
def ask_question (st : ServerState) (scored : List (ℚ × ℕ))
    (queryEmbedOk : Bool) (q : String)
    (thresholdArg maxResultsArg : Option String) : Response (List (String × ℚ)) :=
  match pyFloat (thresholdArg.getD "0.3") with
  | none => .unhandled "ValueError: threshold"
  | some threshold =>
    match pyInt (maxResultsArg.getD "5") with
    | none => .unhandled "ValueError: max_results"
    | some max_results =>
      if q = "" then .errorJson "Missing query parameter q"
      else if st.metadata.isEmpty then .errorJson "No indexed data available"
      else if queryEmbedOk then
        let search_k : Int := min (max_results * 3) (st.metadata.length : Int)
        .ok (pySlice max_results (ask_filter st.metadata threshold (indexSearch scored search_k)))
      else .errorJson "Search error"

/-- The fixed system prompt `generate_chat_response` uses when no context
messages are available (line 143; apostrophized words spelled out). -/
def noDataPrompt : String :=
  "You are an aviation radar assistant. I do not have any current aviation data available right now, but I can help with general aviation questions and guidance."

/-- `"\n".join([f"- {msg}" for msg in context_messages])` (line 128). -/
def contextText (ms : List String) : String :=
  String.intercalate "\n" (ms.map (fun m => "- " ++ m))

/-- The system prompt built by `generate_chat_response` (lines 126-143):
with non-empty context, the data prompt embedding the bulleted context lines
(literal text abridged to the parts surrounding the interpolation); with
empty context, the fixed no-current-data prompt. -/
def chatSystemPrompt (ms : List String) : String :=
  if ms.isEmpty then noDataPrompt
  else
    "You are an aviation radar assistant with access to real-time aircraft data.\nCURRENT AVIATION DATA:\n"
      ++ contextText ms ++ "\nGuidelines: be conversational and helpful."

/-- The `/chat` handler `chat_endpoint` (lines 171-214).  `threshold` and
`max_context` are parsed on lines 175-176, BEFORE the `try` block.  Inside
the `try`, the similarity search runs only `if metadata:`; with an empty
index the context stays `[]` and no embedding call is made.  Search breadth
is `min(max_context * 2, len(metadata))` and the kept context is truncated
by `context_messages[:max_context]`.  The response body is reduced to
(`context_used`, the system prompt passed to generation); a failing external
chat call is caught inside `generate_chat_response` and still yields an ok
response, so it does not appear here. -/
def chat_endpoint (st : ServerState) (scored : List (ℚ × ℕ))
    (queryEmbedOk : Bool) (q : String)
    (thresholdArg maxContextArg : Option String) : Response (ℕ × String) :=
  match pyFloat (thresholdArg.getD "0.3") with
  | none => .unhandled "ValueError: threshold"
  | some threshold =>
    match pyInt (maxContextArg.getD "3") with
    | none => .unhandled "ValueError: max_context"
    | some max_context =>
      if q = "" then .errorJson "Missing query parameter q"
      else if st.metadata.isEmpty then .ok (0, chatSystemPrompt [])
      else if queryEmbedOk then
        let cands := indexSearch scored (min (max_context * 2) (st.metadata.length : Int))
        let ctx := pySlice max_context ((ask_filter st.metadata threshold cands).map Prod.fst)
        .ok (ctx.length, chatSystemPrompt ctx)
      else .errorJson "Chat error"

/-- Inner product of two embedding vectors, the score computed by the
inner-product index (`faiss.IndexFlatIP`); extra trailing coordinates of the
longer vector do not contribute. -/
def dotp : List ℚ → List ℚ → ℚ
  | a :: u, b :: v => a * b + dotp u v
  | _, _ => 0

/-- Squared L2 norm; `faiss.normalize_L2` makes this 1 for every stored and
query vector. -/
def sumSq (u : List ℚ) : ℚ := dotp u u

/-- The last state of the trace is the result of `rebuild_index`. -/
theorem rebuildTrace_getLast (E : String → Option (List ℚ))
    (summaries : List String) (st : ServerState) :
    (rebuildTrace E summaries st).getLast? = some (rebuild_index E summaries st) := by
  unfold rebuildTrace rebuild_index
  split
  · rfl
  · dsimp only
    split <;> rfl

/-- C1: the pairing invariant fails under a partial embedding failure.
With two extracted summaries where embedding the first fails and embedding the
second succeeds, the rebuilt state stores exactly one vector — the embedding
of the second summary — while `metadata.extend(summaries[:1])` stores the
FIRST summary at position 0.  The lengths agree, but the vector at position 0
is the embedding of "B", not of the stored summary "A" (whose embedding call
failed altogether). -/
theorem rebuild_pairing_broken_on_partial_failure :
    (rebuild_index embedFailA ["A", "B"] ⟨[], []⟩).index.length
      = (rebuild_index embedFailA ["A", "B"] ⟨[], []⟩).metadata.length ∧
    (rebuild_index embedFailA ["A", "B"] ⟨[], []⟩).index = [[1]] ∧
    (rebuild_index embedFailA ["A", "B"] ⟨[], []⟩).metadata = ["A"] ∧
    embedFailA "A" = none ∧ embedFailA "B" = some [1] := by
  refine ⟨?_, ?_, ?_, ?_, ?_⟩ <;> decide

/-- C2: publication is not atomic.  Starting from a non-empty published state
and rebuilding one summary whose embedding succeeds, the trace of globally
visible states contains `⟨[[2]], []⟩` — the new vector list paired with an
empty metadata list — which is neither the pre-rebuild state nor the
post-rebuild state: a concurrent query reading between `index.add` and
`metadata.extend` observes a mixture. -/
theorem rebuild_not_atomic :
    mixedState ∈ rebuildTrace embedConst2 ["new"] preOld ∧
    mixedState ≠ preOld ∧
    mixedState ≠ rebuild_index embedConst2 ["new"] preOld := by
  refine ⟨?_, ?_, ?_⟩ <;> decide

/-- C3: a cycle whose every embedding fails does NOT leave the previous
snapshot untouched.  The globals were already reset at the top of the cycle,
so the final state is empty: the previously published vectors and summaries
are destroyed and queries now see no indexed data. -/
theorem rebuild_all_embeddings_fail_wipes_state :
    rebuild_index embedAlwaysFail ["s"] preOld = ⟨[], []⟩ ∧
    preOld.metadata ≠ [] := by
  exact ⟨by decide, by decide⟩

/-- C4: a rebuild cycle in which the source parsers yield zero summaries
(for example both files missing) returns before touching the globals: the
previously published state is unchanged. -/
theorem rebuild_zero_summaries_keeps_state (E : String → Option (List ℚ))
    (adsb : Option (List AdsbEntry)) (vdl2 : Option (List VdlEntry))
    (st : ServerState)
    (h : extract_semantic_messages adsb vdl2 = []) :
    rebuild_index E (extract_semantic_messages adsb vdl2) st = st := by
  rw [h]
  rfl

/-- C4 witness: both sources missing yields zero summaries, and the rebuild
leaves a concrete non-empty state exactly as it was. -/
theorem rebuild_zero_summaries_keeps_state_witness :
    rebuild_index (fun _ => some [3]) (extract_semantic_messages none none)
      ⟨[[1]], ["old"]⟩ = ⟨[[1]], ["old"]⟩ :=
  rebuild_zero_summaries_keeps_state (fun _ => some [3]) none none
    ⟨[[1]], ["old"]⟩ (by decide)

theorem dotp_cons (a b : ℚ) (u v : List ℚ) :
    dotp (a :: u) (b :: v) = a * b + dotp u v := rfl

theorem sumSq_nonneg (u : List ℚ) : 0 ≤ sumSq u := by
  induction u with
  | nil => simp [sumSq, dotp]
  | cons a u ih =>
    have h : sumSq (a :: u) = a * a + sumSq u := rfl
    rw [h]
    nlinarith [sq_nonneg a]

/-- Pointwise AM-GM summed: `2⟨u,v⟩ ≤ ‖u‖² + ‖v‖²`. -/
theorem two_dotp_le (u : List ℚ) : ∀ v : List ℚ, 2 * dotp u v ≤ sumSq u + sumSq v := by
  induction u with
  | nil =>
    intro v
    have h : dotp ([] : List ℚ) v = 0 := by cases v <;> rfl
    have h2 : sumSq ([] : List ℚ) = 0 := rfl
    rw [h, h2]
    have := sumSq_nonneg v
    linarith
  | cons a u ih =>
    intro v
    cases v with
    | nil =>
      have h : dotp (a :: u) [] = 0 := rfl
      have h2 : sumSq ([] : List ℚ) = 0 := rfl
      rw [h, h2]
      have := sumSq_nonneg (a :: u)
      linarith
    | cons b v =>
      have h1 : sumSq (a :: u) = a * a + sumSq u := rfl
      have h2 : sumSq (b :: v) = b * b + sumSq v := rfl
      rw [dotp_cons, h1, h2]
      have h3 := ih v
      nlinarith [sq_nonneg (a - b)]

/-- The similarity score of two unit vectors never exceeds 1. -/
theorem dotp_le_one (u v : List ℚ) (hu : sumSq u = 1) (hv : sumSq v = 1) :
    dotp u v ≤ 1 := by
  have h := two_dotp_le u v
  rw [hu, hv] at h
  linarith

theorem pySlice_nil {α : Type} (n : Int) : pySlice n ([] : List α) = [] := by
  unfold pySlice
  split <;> simp

theorem pySlice_of_nonneg {α : Type} (n : Int) (hn : 0 ≤ n) (xs : List α) :
    pySlice n xs = xs.take n.toNat := by
  unfold pySlice
  rw [if_pos hn]

/-- When every candidate position is a valid index, the handler filter keeps
exactly the candidates at or above the threshold, in order. -/
theorem ask_filter_eq_of_valid (metadata : List String) (threshold : ℚ)
    (cands : List (ℚ × ℕ)) (h : ∀ c ∈ cands, c.2 < metadata.length) :
    ask_filter metadata threshold cands
      = (cands.filter (fun c => decide (threshold ≤ c.1))).map
          (fun c => (metadata.getD c.2 "", c.1)) := by
  induction cands with
  | nil => rfl
  | cons c cs ih =>
    have hc2 : c.2 < metadata.length := h c (List.mem_cons_self c cs)
    have hrest : ∀ x ∈ cs, x.2 < metadata.length :=
      fun x hx => h x (List.mem_cons_of_mem c hx)
    unfold ask_filter at ih ⊢
    rw [List.filterMap_cons, List.filter_cons]
    by_cases hth : threshold ≤ c.1
    · simp only [hc2, hth, and_self, if_true, decide_true_eq_true]
      rw [ih hrest]
      simp
    · simp only [hth, and_false, if_false, decide_false_eq_false]
      rw [ih hrest]
      simp [hth]

/-- If every candidate score is at most 1 and the threshold exceeds 1, the
filter keeps nothing. -/
theorem ask_filter_empty_of_high_threshold (metadata : List String)
    (threshold : ℚ) (hθ : 1 < threshold) (cands : List (ℚ × ℕ))
    (h : ∀ c ∈ cands, c.1 ≤ 1) :
    ask_filter metadata threshold cands = [] := by
  induction cands with
  | nil => rfl
  | cons c cs ih =>
    have h1 : c.1 ≤ 1 := h c (List.mem_cons_self c cs)
    have hcond : ¬(c.2 < metadata.length ∧ threshold ≤ c.1) := by
      rintro ⟨-, hh⟩
      linarith
    unfold ask_filter at ih ⊢
    rw [List.filterMap_cons]
    simp only [hcond, if_false]
    exact ih (fun x hx => h x (List.mem_cons_of_mem c hx))

/-- The default `threshold` request value `"0.3"` parses to 3/10. -/
theorem pyFloat_default : pyFloat "0.3" = some ((3 : ℚ)/10) := by
  have h0 : digitsToNat ['0'] = 0 := by decide
  have h3 : digitsToNat ['3'] = 3 := by decide
  show some ((digitsToNat ['0'] : ℚ) + (digitsToNat ['3'] : ℚ) / 10 ^ (['3'] : List Char).length)
    = some ((3 : ℚ)/10)
  rw [h0, h3]
  norm_num

/-- C5 counterexample: a position-report entry whose transponder code (`hex`)
is absent renders that field as the EMPTY string, not as an "unknown"/"?"
placeholder: the summary shows bare parentheses `()`. -/
theorem adsb_missing_hex_empty_string :
    let a : AdsbEntry := ⟨some "UAL123", none, some "35000", some "450", some "40.1", some "-74.2"⟩
    a.hex = none ∧ renderHex a = "" ∧
    adsbSummary a = "ADS-B: UAL123 () at 35000 ft, speed 450 knots, position 40.1, -74.2" ∧
    renderHex a ≠ "unknown" ∧ renderHex a ≠ "?" := by
  refine ⟨rfl, rfl, by decide, by decide, by decide⟩

/-- C5 (amended): every position-report entry yields exactly one summary, and
every missing field EXCEPT the transponder code renders as an explicit
"unknown" or "?" placeholder; a missing transponder code renders as the
empty string. -/
theorem adsb_one_summary_and_placeholders (l : List AdsbEntry) (a : AdsbEntry) :
    (l.map adsbSummary).length = l.length ∧
    (a.flight = none → renderFlight a = "unknown") ∧
    (a.alt_baro = none → renderAlt a = "unknown") ∧
    (a.gs = none → renderSpeed a = "unknown") ∧
    (a.lat = none → renderLat a = "?") ∧
    (a.lon = none → renderLon a = "?") ∧
    (a.hex = none → renderHex a = "") := by
  refine ⟨List.length_map l adsbSummary, ?_, ?_, ?_, ?_, ?_, ?_⟩
  all_goals intro h
  all_goals simp only [renderFlight, renderAlt, renderSpeed, renderLat, renderLon,
    renderHex, h, Option.getD_none]
  all_goals decide

/-- C5 witness: the fully-missing entry produces one summary whose fields all
take the stated defaults. -/
theorem adsb_one_summary_and_placeholders_witness :
    (([⟨none, none, none, none, none, none⟩] : List AdsbEntry).map adsbSummary).length = 1 ∧
    renderFlight ⟨none, none, none, none, none, none⟩ = "unknown" ∧
    renderAlt ⟨none, none, none, none, none, none⟩ = "unknown" ∧
    renderSpeed ⟨none, none, none, none, none, none⟩ = "unknown" ∧
    renderLat ⟨none, none, none, none, none, none⟩ = "?" ∧
    renderLon ⟨none, none, none, none, none, none⟩ = "?" ∧
    renderHex ⟨none, none, none, none, none, none⟩ = "" := by
  obtain ⟨h1, h2, h3, h4, h5, h6, h7⟩ :=
    adsb_one_summary_and_placeholders [⟨none, none, none, none, none, none⟩]
      ⟨none, none, none, none, none, none⟩
  exact ⟨h1, h2 rfl, h3 rfl, h4 rfl, h5 rfl, h6 rfl, h7 rfl⟩

/-- C6: over a non-empty snapshot with all searched positions valid, `/ask`
returns exactly the searched candidates whose score is at or above the
threshold (inclusive; the default threshold parses to 3/10 = 0.3 and the
default max_results to 5), in the order the search produced them, truncated
to at most `max_results` entries. -/
theorem ask_results_filter_truncate (st : ServerState) (scored : List (ℚ × ℕ))
    (q : String) (thresholdArg maxResultsArg : Option String)
    (threshold : ℚ) (max_results : Int)
    (hq : q ≠ "") (hmd : st.metadata.isEmpty = false)
    (ht : pyFloat (thresholdArg.getD "0.3") = some threshold)
    (hm : pyInt (maxResultsArg.getD "5") = some max_results)
    (hmr : 0 ≤ max_results)
    (hidx : ∀ c ∈ scored, c.2 < st.metadata.length) :
    ask_question st scored true q thresholdArg maxResultsArg
      = .ok ((((indexSearch scored (min (max_results * 3) (st.metadata.length : Int))).filter
            (fun c => decide (threshold ≤ c.1))).map
            (fun c => (st.metadata.getD c.2 "", c.1))).take max_results.toNat) := by
  unfold ask_question
  rw [ht, hm]
  simp only [hq, hmd, if_neg, Bool.false_eq_true, if_false, ite_true, if_true]
  have hvalid : ∀ c ∈ indexSearch scored (min (max_results * 3) (st.metadata.length : Int)),
      c.2 < st.metadata.length :=
    fun c hc => hidx c (List.take_subset _ _ hc)
  rw [ask_filter_eq_of_valid _ _ _ hvalid, pySlice_of_nonneg _ hmr]

/-- C6 witness: with the default parameters (threshold 0.3, max_results 5)
over the snapshot ["a", "b"], the candidate scored 1 is kept and the
candidate scored 1/5 is filtered out. -/
theorem ask_results_filter_truncate_witness :
    ask_question ⟨[[1], [2]], ["a", "b"]⟩ [((1 : ℚ), 0), ((0 : ℚ), 1)] true "q" none none
      = .ok [("a", (1 : ℚ))] := by
  rw [ask_results_filter_truncate ⟨[[1], [2]], ["a", "b"]⟩ [((1 : ℚ), 0), ((0 : ℚ), 1)]
    "q" none none ((3 : ℚ)/10) 5 (by decide) (by decide) pyFloat_default (by decide)
    (by decide) (by decide)]
  norm_num [indexSearch, List.filter]

/-- C8: whenever the threshold exceeds 1, the filter-and-truncate step of the
search returns nothing, for any snapshot of any size and any candidates
whose scores are inner products of unit vectors. -/
theorem ask_high_threshold_empty (metadata : List String) (threshold : ℚ)
    (max_results : Int) (cands : List (ℚ × ℕ)) (hθ : 1 < threshold)
    (hscores : ∀ c ∈ cands, ∃ u v : List ℚ,
      sumSq u = 1 ∧ sumSq v = 1 ∧ c.1 = dotp u v) :
    pySlice max_results (ask_filter metadata threshold cands) = [] := by
  have hle : ∀ c ∈ cands, c.1 ≤ 1 := by
    intro c hc
    obtain ⟨u, v, hu, hv, hc1⟩ := hscores c hc
    rw [hc1]
    exact dotp_le_one u v hu hv
  rw [ask_filter_empty_of_high_threshold metadata threshold hθ cands hle, pySlice_nil]

/-- C8 witness: threshold 1.1 discards a unit-vector candidate scored 3/5. -/
theorem ask_high_threshold_empty_witness :
    pySlice 5 (ask_filter ["a"] ((11 : ℚ)/10) [((3 : ℚ)/5, 0)]) = [] := by
  apply ask_high_threshold_empty _ _ _ _ (by norm_num)
  intro c hc
  refine ⟨[3/5, 4/5], [1, 0], by norm_num [sumSq, dotp], by norm_num [sumSq, dotp], ?_⟩
  simp only [List.mem_singleton] at hc
  rw [hc]
  norm_num [dotp]

/-- C9: a search request with `max_results ≤ 0` yields the successful empty
result, not an error: the search breadth `min(max_results * 3, count)` is
then nonpositive, the search returns no candidates, and the empty list
passes through filter and slice. -/
theorem ask_nonpositive_max_results_empty (st : ServerState)
    (scored : List (ℚ × ℕ)) (q : String)
    (thresholdArg maxResultsArg : Option String)
    (threshold : ℚ) (max_results : Int)
    (hq : q ≠ "") (hmd : st.metadata.isEmpty = false)
    (ht : pyFloat (thresholdArg.getD "0.3") = some threshold)
    (hm : pyInt (maxResultsArg.getD "5") = some max_results)
    (hmr : max_results ≤ 0) :
    ask_question st scored true q thresholdArg maxResultsArg = .ok [] := by
  unfold ask_question
  rw [ht, hm]
  simp only [hq, hmd, if_neg, Bool.false_eq_true, if_false, ite_true, if_true]
  have hk : (min (max_results * 3) ((st.metadata.length : ℕ) : Int)).toNat = 0 := by
    have h1 : min (max_results * 3) ((st.metadata.length : ℕ) : Int) ≤ max_results * 3 :=
      min_le_left _ _
    have h2 : min (max_results * 3) ((st.metadata.length : ℕ) : Int) ≤ 0 := by linarith
    exact Int.toNat_of_nonpos h2
  have hcands : indexSearch scored (min (max_results * 3) ((st.metadata.length : ℕ) : Int)) = [] := by
    unfold indexSearch
    rw [hk]
    rfl
  rw [hcands]
  rw [show ask_filter st.metadata threshold [] = [] from rfl, pySlice_nil]

/-- C9 witness: `max_results=0` over a one-entry snapshot returns the empty
result with no error. -/
theorem ask_nonpositive_max_results_empty_witness :
    ask_question ⟨[[1]], ["a"]⟩ [((1 : ℚ), 0)] true "q" none (some "0") = .ok [] :=
  ask_nonpositive_max_results_empty ⟨[[1]], ["a"]⟩ [((1 : ℚ), 0)] "q" none (some "0")
    ((3 : ℚ)/10) 0 (by decide) (by decide) pyFloat_default (by decide) (by decide)

/-- C7: malformed retrieval parameters are NOT returned as a structured
error.  `threshold`, `max_results` and `max_context` are parsed by
`float(...)`/`int(...)` before the `try` block of each handler, so a
non-numeric value raises a `ValueError` that escapes the handler instead of
producing the structured error JSON. -/
theorem malformed_params_unhandled :
    ask_question ⟨[[1]], ["a"]⟩ [((1 : ℚ), 0)] true "x" (some "abc") none
        = Response.unhandled "ValueError: threshold" ∧
    ask_question ⟨[[1]], ["a"]⟩ [((1 : ℚ), 0)] true "x" none (some "five")
        = Response.unhandled "ValueError: max_results" ∧
    chat_endpoint ⟨[[1]], ["a"]⟩ [((1 : ℚ), 0)] true "x" (some "abc") none
        = Response.unhandled "ValueError: threshold" ∧
    chat_endpoint ⟨[[1]], ["a"]⟩ [((1 : ℚ), 0)] true "x" none (some "3.5")
        = Response.unhandled "ValueError: max_context" := by
  refine ⟨by decide, by decide, by decide, by decide⟩

/-- C10: a `/chat` request with a non-empty query over an empty index skips
the search entirely (the outcome does not depend on the index candidates or
on whether query embedding would succeed) and returns a successful response
with zero context built from the fixed no-current-data prompt, while `/ask`
in the same state returns the no-indexed-data error. -/
theorem chat_empty_index_vs_ask (st : ServerState) (scored : List (ℚ × ℕ))
    (b e : Bool) (q : String)
    (hq : q ≠ "") (hmd : st.metadata.isEmpty = true) :
    chat_endpoint st scored b q none none = .ok (0, noDataPrompt) ∧
    ask_question st scored e q none none = .errorJson "No indexed data available" := by
  have h1 : pyFloat ((none : Option String).getD "0.3") = some ((3 : ℚ)/10) := pyFloat_default
  have h2 : pyInt ((none : Option String).getD "3") = some 3 := by decide
  have h3 : pyInt ((none : Option String).getD "5") = some 5 := by decide
  constructor
  · unfold chat_endpoint
    rw [h1, h2]
    simp [hq, hmd, chatSystemPrompt]
  · unfold ask_question
    rw [h1, h3]
    simp [hq, hmd]

/-- C10 witness: over the empty snapshot, `/chat` answers with zero context
and the no-data prompt while `/ask` reports no indexed data. -/
theorem chat_empty_index_vs_ask_witness :
    chat_endpoint ⟨[], []⟩ [] true "hi" none none = .ok (0, noDataPrompt) ∧
    ask_question ⟨[], []⟩ [] true "hi" none none
      = .errorJson "No indexed data available" :=
  chat_empty_index_vs_ask ⟨[], []⟩ [] true true "hi" (by decide) (by decide)
